import Mathlib

/-!
# Verification of the tuya-mcp-sdk signing and connection stack

Shallow embedding of the Go sources of `tuya-mcp-sdk` (packages `utils`,
`entity`, `mcpsdk`), with proofs about the HMAC-SHA256 signing algorithm
(`Sha256Algo`), the WebSocket envelope signer (`WsDataSigner`), the REST
signer (`RestfulSigner`), envelope sign/verify (`MCPSdkRequest.DoSign` /
`DoVerify`), the dispatcher's response construction, the authentication
flow (`AuthToken.Auth`, `AuthToken.ConnectHeader`), the retry backoff
(`RetryWithBackoff`) and the health-check timer (`checkStatusTimer`).

Go strings are modelled as lists of characters (`Str`); Go `[]byte` as
`List Nat` with every entry a byte value.  Conversion from `string` to
`[]byte` is UTF-8 encoding, as in Go.  Machine 32-bit words are `Nat`
reduced modulo `2^32` where overflow matters.  Code that can panic
(out-of-bounds slicing in `genSignStr`) is embedded in `Option`, with
`none` standing for the panic.
-/

set_option maxRecDepth 100000

namespace TuyaMcpSdk

/-- Go strings modelled as character lists. All string data handled by the
signing stack is ASCII, where Lean `Char` order and Go byte order agree. -/
abbrev Str := List Char

/-- Character data of a Lean string literal, as a `Str`. -/
def str (s : String) : Str := s.data

/-- UTF-8 encoding of one character, as Go produces when converting a
`string` to `[]byte`. -/
def utf8Char (c : Char) : List Nat :=
  let n := c.toNat
  if n < 128 then [n]
  else if n < 2048 then [192 + n / 64, 128 + n % 64]
  else if n < 65536 then [224 + n / 4096, 128 + (n / 64) % 64, 128 + n % 64]
  else [240 + n / 262144, 128 + (n / 4096) % 64, 128 + (n / 64) % 64, 128 + n % 64]

/-- UTF-8 encoding of a string, i.e. Go's `[]byte(s)`. -/
def utf8Bytes : Str → List Nat
  | [] => []
  | c :: cs => utf8Char c ++ utf8Bytes cs

/-! ## SHA-256 (FIPS 180-4), as used by Go `crypto/sha256` -/

/-- Reduction to a 32-bit word. -/
def mod32 (n : Nat) : Nat := n % 4294967296

/-- 32-bit right rotation (argument assumed below `2^32`). -/
def rotr32 (x n : Nat) : Nat := mod32 ((x >>> n) ||| (x <<< (32 - n)))

/-- 32-bit bitwise complement. -/
def not32 (x : Nat) : Nat := 4294967295 - x

def sigma0 (x : Nat) : Nat := (rotr32 x 7) ^^^ (rotr32 x 18) ^^^ (x >>> 3)

def sigma1 (x : Nat) : Nat := (rotr32 x 17) ^^^ (rotr32 x 19) ^^^ (x >>> 10)

def bigSigma0 (x : Nat) : Nat := (rotr32 x 2) ^^^ (rotr32 x 13) ^^^ (rotr32 x 22)

def bigSigma1 (x : Nat) : Nat := (rotr32 x 6) ^^^ (rotr32 x 11) ^^^ (rotr32 x 25)

/-- The 64 SHA-256 round constants. -/
def shaK : List Nat :=
  [1116352408, 1899447441, 3049323471, 3921009573, 961987163,
   1508970993, 2453635748, 2870763221, 3624381080, 310598401,
   607225278, 1426881987, 1925078388, 2162078206, 2614888103,
   3248222580, 3835390401, 4022224774, 264347078, 604807628,
   770255983, 1249150122, 1555081692, 1996064986, 2554220882,
   2821834349, 2952996808, 3210313671, 3336571891, 3584528711,
   113926993, 338241895, 666307205, 773529912, 1294757372,
   1396182291, 1695183700, 1986661051, 2177026350, 2456956037,
   2730485921, 2820302411, 3259730800, 3345764771, 3516065817,
   3600352804, 4094571909, 275423344, 430227734, 506948616,
   659060556, 883997877, 958139571, 1322822218, 1537002063,
   1747873779, 1955562222, 2024104815, 2227730452, 2361852424,
   2428436474, 2756734187, 3204031479, 3329325298]

/-- The SHA-256 initial hash value. -/
def shaH0 : List Nat :=
  [1779033703, 3144134277, 1013904242, 2773480762,
   1359893119, 2600822924, 528734635, 1541459225]

/-- Big-endian 8-byte encoding of a length value. -/
def be64 (n : Nat) : List Nat :=
  [(n >>> 56) % 256, (n >>> 48) % 256, (n >>> 40) % 256, (n >>> 32) % 256,
   (n >>> 24) % 256, (n >>> 16) % 256, (n >>> 8) % 256, n % 256]

/-- SHA-256 padding: append `0x80`, zeros to 56 mod 64, then the bit length. -/
def padMsg (msg : List Nat) : List Nat :=
  msg ++ [128] ++ List.replicate ((119 - msg.length % 64) % 64) 0
      ++ be64 (msg.length * 8)

/-- Big-endian grouping of bytes into 32-bit words. -/
def toWords : List Nat → List Nat
  | b0 :: b1 :: b2 :: b3 :: rest =>
      (b0 * 16777216 + b1 * 65536 + b2 * 256 + b3) :: toWords rest
  | _ => []

/-- Split a word list into blocks of 16 words (fuel-structured recursion;
each step consumes at least one word, so `ws.length` fuel suffices). -/
def chunkBlocksF : Nat → List Nat → List (List Nat)
  | 0, _ => []
  | _, [] => []
  | fuel + 1, w :: ws => ((w :: ws).take 16) :: chunkBlocksF fuel ((w :: ws).drop 16)

/-- Split a word list into blocks of 16 words. -/
def chunkBlocks (ws : List Nat) : List (List Nat) := chunkBlocksF ws.length ws

/-- The 64-entry message schedule of one block. -/
def buildW (block : List Nat) : List Nat :=
  (List.range 64).foldl
    (fun w t =>
      if t < 16 then w ++ [block.getD t 0]
      else w ++ [mod32 (sigma1 (w.getD (t - 2) 0) + w.getD (t - 7) 0 +
                        sigma0 (w.getD (t - 15) 0) + w.getD (t - 16) 0)]) []

/-- One SHA-256 round on the 8-word working state. -/
def shaRound (s : List Nat) (k w : Nat) : List Nat :=
  let a := s.getD 0 0
  let b := s.getD 1 0
  let c := s.getD 2 0
  let d := s.getD 3 0
  let e := s.getD 4 0
  let f := s.getD 5 0
  let g := s.getD 6 0
  let h := s.getD 7 0
  let t1 := mod32 (h + bigSigma1 e + ((e &&& f) ^^^ (not32 e &&& g)) + k + w)
  let t2 := mod32 (bigSigma0 a + ((a &&& b) ^^^ (a &&& c) ^^^ (b &&& c)))
  [mod32 (t1 + t2), a, b, c, mod32 (d + t1), e, f, g]

/-- Compression of one 16-word block into the chaining value. -/
def compress (hs : List Nat) (block : List Nat) : List Nat :=
  let w := buildW block
  let s := (shaK.zip w).foldl (fun s kw => shaRound s kw.1 kw.2) hs
  List.zipWith (fun x y => mod32 (x + y)) hs s

/-- Big-endian bytes of a word list. -/
def wordsToBytes : List Nat → List Nat
  | [] => []
  | w :: ws => [(w >>> 24) % 256, (w >>> 16) % 256, (w >>> 8) % 256, w % 256]
      ++ wordsToBytes ws

/-- SHA-256 digest (32 bytes) of a byte string. -/
def sha256 (msg : List Nat) : List Nat :=
  wordsToBytes ((chunkBlocks (toWords (padMsg msg))).foldl compress shaH0)

/-- HMAC-SHA256 (RFC 2104) with a 64-byte block, as Go `crypto/hmac` with
`sha256.New`. -/
def hmacSha256 (key msg : List Nat) : List Nat :=
  let k0 := if 64 < key.length then sha256 key else key
  let kp := k0 ++ List.replicate (64 - k0.length) 0
  sha256 ((kp.map (fun b => b ^^^ 92)) ++ sha256 ((kp.map (fun b => b ^^^ 54)) ++ msg))

/-! ## Hex encoding and ASCII case mapping -/

/-- Lowercase hex digit, as Go `encoding/hex`. -/
def hexDigitChar (n : Nat) : Char :=
  Char.ofNat (if n < 10 then 48 + n else 87 + n)

/-- Lowercase hex encoding of a byte string, Go `hex.EncodeToString`. -/
def hexEncode : List Nat → Str
  | [] => []
  | b :: bs => hexDigitChar (b / 16) :: hexDigitChar (b % 16) :: hexEncode bs

/-- ASCII uppercase of one character. Go `strings.ToUpper` is Unicode-aware
but every string it is applied to in this code is a hex digest, which is
ASCII, where the two agree. -/
def upChar (c : Char) : Char :=
  if 97 ≤ c.toNat ∧ c.toNat ≤ 122 then Char.ofNat (c.toNat - 32) else c

/-- ASCII uppercase of a string (`strings.ToUpper` on ASCII input). -/
def upStr (s : Str) : Str := s.map upChar

/-- ASCII lowercase of one character. -/
def lowChar (c : Char) : Char :=
  if 65 ≤ c.toNat ∧ c.toNat ≤ 90 then Char.ofNat (c.toNat + 32) else c

/-- ASCII lowercase of a string. -/
def lowStr (s : Str) : Str := s.map lowChar

/-! ## `Sha256Algo` (utils: sha256 算法 signer)

Go `Sha256Algo.Sign` / `Sha256Algo.Verify` both return a `nil` error
unconditionally, so they are embedded as total functions. -/

/-- `Sha256Algo.Sign`: HMAC-SHA256 of `data` keyed by `salt`, hex encoded,
uppercased. -/
def Sha256Algo.Sign (data : List Nat) (salt : Str) : Str :=
  upStr (hexEncode (hmacSha256 (utf8Bytes salt) data))

/-- `Sha256Algo.Verify`: recompute the digest, uppercase the recomputation,
and compare it with the supplied sign by exact string equality. -/
def Sha256Algo.Verify (data : List Nat) (salt : Str) (sign : Str) : Bool :=
  upStr (hexEncode (hmacSha256 (utf8Bytes salt) data)) == sign

/-! ## String ordering and map iteration (Go `sort.Strings`, map access)

Go sorts the payload keys with `sort.Strings` (byte-wise lexicographic
order).  On the ASCII key material of this SDK, byte order and character
code-point order coincide. -/

/-- Lexicographic (code-point) order on strings, Go string `<=`. -/
def strLeB : Str → Str → Bool
  | [], _ => true
  | _ :: _, [] => false
  | a :: as, b :: bs => if a = b then strLeB as bs else decide (a < b)

/-- `strLeB` as a relation, for use with `List.insertionSort`. -/
def strLe (a b : Str) : Prop := strLeB a b = true

instance strLe.decRel : DecidableRel strLe := fun a b => by
  unfold strLe; infer_instance

/-- `sort.Strings`: ascending lexicographic sort of a key list. -/
def sortStrings (l : List Str) : List Str := List.insertionSort strLe l

/-- Go map access `payload[key]` on the association-list model of the map
(the zero value `""` for an absent key, which never occurs since keys are
drawn from the map itself). -/
def lookupD : List (Str × Str) → Str → Str
  | [], _ => []
  | (k, v) :: rest, key => if k = key then v else lookupD rest key

/-! ## `WsDataSigner` (utils: websocket 数据鉴权)

`genSignStr` iterates the sorted keys, skips `"sign"`, appends
`key:value\n` per key, and finally slices off the last byte with
`signStr[:len(signStr)-1]` — which panics when `signStr` is empty.  The
panic is embedded as `none`. -/

/-- One iteration of the `genSignStr` loop: skip the `sign` key, otherwise
append `key:value\n`. -/
def wsStep (payload : List (Str × Str)) (acc : Str) (k : Str) : Str :=
  if k = str "sign" then acc
  else acc ++ k ++ str ":" ++ lookupD payload k ++ str "\n"

/-- The loop of `WsDataSigner.genSignStr`, before the final slice. -/
def wsSignStrRaw (payload : List (Str × Str)) : Str :=
  (sortStrings (payload.map Prod.fst)).foldl (wsStep payload) []

/-- `WsDataSigner.genSignStr`: the canonical string, or `none` for the
out-of-bounds panic of `signStr[:len(signStr)-1]` on the empty string. -/
def WsDataSigner.genSignStr (payload : List (Str × Str)) : Option Str :=
  if wsSignStrRaw payload = [] then none
  else some (wsSignStrRaw payload).dropLast

/-- `WsDataSigner.Sign` (its `error` result is always `nil`; `none` is the
panic propagated from `genSignStr`). -/
def WsDataSigner.Sign (payload : List (Str × Str)) (salt : Str) : Option Str :=
  (WsDataSigner.genSignStr payload).map fun s => Sha256Algo.Sign (utf8Bytes s) salt

/-- `WsDataSigner.Verify` (same panic convention). -/
def WsDataSigner.Verify (payload : List (Str × Str)) (salt : Str) (sign : Str) :
    Option Bool :=
  (WsDataSigner.genSignStr payload).map fun s => Sha256Algo.Verify (utf8Bytes s) salt sign

/-! ## Envelopes (entity: `MCPSdkBaseMsg`, `MCPSdkRequest`, `MCPSdkResponse`) -/

structure MCPSdkBaseMsg where
  RequestID : Str
  Endpoint : Str
  Version : Str
  Method : Str
  Timestamp : Str
  Sign : Str

structure MCPSdkRequest extends MCPSdkBaseMsg where
  Request : Str

structure MCPSdkResponse extends MCPSdkBaseMsg where
  Response : Str

/-- The payload map built by `MCPSdkRequest.DoSign` / `DoVerify` (the Go
code fills a fresh `map[string]string`; the insertion order shown here is
the source order, which is irrelevant after sorting). -/
def MCPSdkRequest.payloadMap (w : MCPSdkRequest) : List (Str × Str) :=
  [(str "request_id", w.RequestID), (str "endpoint", w.Endpoint),
   (str "version", w.Version), (str "method", w.Method),
   (str "ts", w.Timestamp), (str "request", w.Request)]

/-- `MCPSdkRequest.DoSign`: sign the payload map and store the sign field. -/
def MCPSdkRequest.DoSign (w : MCPSdkRequest) (token : Str) : Option MCPSdkRequest :=
  (WsDataSigner.Sign w.payloadMap token).map fun sign => { w with Sign := sign }

/-- `MCPSdkRequest.DoVerify`: verify the stored sign against the payload map. -/
def MCPSdkRequest.DoVerify (w : MCPSdkRequest) (token : Str) : Option Bool :=
  WsDataSigner.Verify w.payloadMap token w.Sign

/-- The payload map built by `MCPSdkResponse.DoSign` / `DoVerify`. -/
def MCPSdkResponse.payloadMap (w : MCPSdkResponse) : List (Str × Str) :=
  [(str "request_id", w.RequestID), (str "endpoint", w.Endpoint),
   (str "version", w.Version), (str "method", w.Method),
   (str "ts", w.Timestamp), (str "response", w.Response)]

/-- `MCPSdkResponse.DoSign`. -/
def MCPSdkResponse.DoSign (w : MCPSdkResponse) (token : Str) : Option MCPSdkResponse :=
  (WsDataSigner.Sign w.payloadMap token).map fun sign => { w with Sign := sign }

/-- `MCPSdkResponse.DoVerify`. -/
def MCPSdkResponse.DoVerify (w : MCPSdkResponse) (token : Str) : Option Bool :=
  WsDataSigner.Verify w.payloadMap token w.Sign

/-- Strict ascending order of a string list (Boolean, for computation). -/
def strictAscB : List Str → Bool
  | a :: b :: rest => (strLeB a b && !(a == b)) && strictAscB (b :: rest)
  | _ => true

/-! ## `RestfulSigner` (utils: HTTP 通用鉴权)

The header is `Option`-al (`nil` map possible); query parameters and the
header are modelled as association lists whose values are already joined
with `","` (Go joins the `[]string` values on access).  `WithSignerHeader`
builds the header from a `map[string]string`, so every value list is a
singleton at the two call sites. -/

/-- Go `strings.Split(s, ",")`: split on each comma; `[""]` for the empty
string. -/
def splitComma : Str → List Str
  | [] => [[]]
  | c :: rest =>
      match splitComma rest with
      | [] => [[c]]
      | h :: t => if c = ',' then [] :: (h :: t) else (c :: h) :: t

/-- ASCII whitespace (Go `unicode.IsSpace` on the ASCII range; all strings
trimmed here are ASCII header names). -/
def isSpaceChar (c : Char) : Bool :=
  c = ' ' || c = '\t' || c = '\n' || c = Char.ofNat 11 || c = Char.ofNat 12 || c = '\r'

def trimLeft : Str → Str
  | [] => []
  | c :: rest => if isSpaceChar c then trimLeft rest else c :: rest

/-- Go `strings.TrimSpace` (ASCII). -/
def trimSpace (s : Str) : Str := (trimLeft (trimLeft s).reverse).reverse

structure RestfulSigner where
  params : List (Str × Str)
  path : Str
  header : Option (List (Str × Str))
  payload : Str
  salt : Str

/-- `RestfulSigner.headerStr`: empty for a `nil` header; otherwise the four
fixed header fields each followed by `\n`, then one `key:value\n` line per
name listed in `signature_headers` (absent at both call sites). -/
def RestfulSigner.headerStr (s : RestfulSigner) : Str :=
  match s.header with
  | none => []
  | some hdr =>
      let low := hdr.map fun kv => (lowStr kv.1, kv.2)
      let base := lookupD low (str "access_id") ++ str "\n" ++
        lookupD low (str "t") ++ str "\n" ++
        lookupD low (str "sign_method") ++ str "\n" ++
        lookupD low (str "nonce") ++ str "\n"
      let sigHdrs := lookupD hdr (str "signature_headers")
      if sigHdrs = [] then base
      else
        (splitComma sigHdrs).foldl
          (fun acc k => acc ++ trimSpace k ++ str ":" ++
            trimSpace (lookupD hdr (trimSpace k)) ++ str "\n") base

/-- `RestfulSigner.queryParamsStr`: empty for no parameters, otherwise the
sorted `key=value` pairs joined by `&` (built with a trailing `&` that the
final byte-slice removes; with at least one parameter the slice is in
bounds). -/
def RestfulSigner.queryParamsStr (s : RestfulSigner) : Str :=
  if s.params = [] then []
  else
    ((sortStrings (s.params.map Prod.fst)).foldl
      (fun acc k => acc ++ k ++ str "=" ++ lookupD s.params k ++ str "&") []).dropLast

/-- `RestfulSigner.payloadStr`. -/
def RestfulSigner.payloadStr (s : RestfulSigner) : Str :=
  if s.payload = [] then [] else s.payload

/-- `RestfulSigner.url`. -/
def RestfulSigner.urlStr (s : RestfulSigner) : Str :=
  if s.path = [] then [] else s.path

/-- `RestfulSigner.genSignStr`: header block, query string, body and path
joined by single `\n` separators. -/
def RestfulSigner.genSignStr (s : RestfulSigner) : Str :=
  s.headerStr ++ str "\n" ++ s.queryParamsStr ++ str "\n" ++
    s.payloadStr ++ str "\n" ++ s.urlStr

/-- `RestfulSigner.Sign` (its `error` is always `nil`). -/
def RestfulSigner.Sign (s : RestfulSigner) : Str :=
  Sha256Algo.Sign (utf8Bytes s.genSignStr) s.salt

/-- The string preceding a section is a blank line exactly when it ends in
two newlines. -/
def endsWithTwoNl (s : Str) : Bool :=
  match s.reverse with
  | '\n' :: '\n' :: _ => true
  | _ => false

/-! ## `AuthToken` (mcpsdk/auth.go)

The configured endpoint is modelled already parsed into scheme and host
(`url.Parse` of the well-formed URLs built here always succeeds, so the
parse is not a source of errors in this model).  `t` (wall clock) and
`nonce` (UUID) are nondeterministic inputs, passed as parameters. -/

structure authData where
  Token : Str
  ClientId : Str

structure authResponse where
  Data : authData
  Success : Bool

structure AuthToken where
  Scheme : Str
  Host : Str
  accessKey : Str
  accessSecret : Str
  resp : authResponse

/-- A fresh `AuthToken` before any `Auth()` call: the embedded
`authResponse` holds Go zero values (empty token, empty client id,
`success=false`). -/
def NewAuthToken (scheme host accessKey accessSecret : Str) : AuthToken :=
  { Scheme := scheme, Host := host, accessKey := accessKey,
    accessSecret := accessSecret,
    resp := { Data := { Token := [], ClientId := [] }, Success := false } }

/-- `utils.HttpGet`: a transport error propagates; otherwise the body is
returned whatever the HTTP status code is (`resp.StatusCode` is never
read). -/
def HttpGet (transport : Except Str (Nat × Str)) : Except Str Str :=
  match transport with
  | .error e => .error e
  | .ok (_, body) => .ok body

/-- `AuthToken.Auth` after the HTTP GET (auth.go lines 74-82): the body
either fails to unmarshal (`none`) or yields an `authResponse`; the code
then checks only `Success` — the token and client id are not examined. -/
def authAfterBody (unmarshal : Option authResponse) : Except Str (authResponse) :=
  match unmarshal with
  | none => .error (str "unmarshal error")
  | some r =>
      if r.Success then .ok r
      else .error (str "auth response token is empty")

/-- `AuthToken.url(UrlTypeConnect)`: scheme `http` becomes `ws`, `https`
becomes `wss`, path `/ws/mcp`. -/
def wsSchemeOf (scheme : Str) : Str :=
  if scheme = str "http" then str "ws"
  else if scheme = str "https" then str "wss"
  else scheme

/-- `AuthToken.connectUrl`. -/
def connectUrlOf (a : AuthToken) (clientId : Str) : Str :=
  wsSchemeOf a.Scheme ++ str "://" ++ a.Host ++ str "/ws/mcp" ++
    str "?client_id=" ++ clientId

/-- `AuthToken.ConnectHeader`: build the four headers, the connect URL from
the stored client id, and sign with the stored token — with no check that a
successful `Auth()` happened first.  The only `error` return in the source
follows a `url.Parse` of the URL just built, which is well formed. -/
def AuthToken.ConnectHeader (a : AuthToken) (t nonce : Str) :
    Except Str (Str × List (Str × Str)) :=
  let header := [(str "access_id", a.accessKey), (str "t", t),
    (str "nonce", nonce), (str "sign_method", str "HMAC-SHA256")]
  let urlAddr := connectUrlOf a a.resp.Data.ClientId
  let signer : RestfulSigner :=
    { params := [(str "client_id", a.resp.Data.ClientId)],
      path := str "/ws/mcp", header := some header, payload := [],
      salt := a.resp.Data.Token }
  .ok (urlAddr, header ++ [(str "sign", signer.Sign)])

/-! ## Dispatcher response construction (mcpsdk/handler.go)

All three reply sites — the `tools/list` reply, the `tools/call` reply and
the `replyError` tool-error reply — construct
`MCPSdkResponse{MCPSdkBaseMsg: req.MCPSdkBaseMsg, Response: body}` and then
call `DoSign`; only the marshalled `body` differs between them. -/

/-- The response envelope the dispatcher emits for a request, before
serialisation: the request's base message with the reply body, signed. -/
def handlerResponse (req : MCPSdkRequest) (body : Str) (token : Str) :
    Option MCPSdkResponse :=
  ({ toMCPSdkBaseMsg := req.toMCPSdkBaseMsg, Response := body } :
      MCPSdkResponse).DoSign token

/-! ## `RetryWithBackoff` (utils/safego.go)

Durations are nanosecond counts, modelled as `Nat` (the Go update
`time.Duration(math.Min(float64(delay)*2, float64(maxDelay)))` is exact for
the magnitudes involved, far below `2^53`). -/

/-- The sleep before the next attempt: `jitter` (drawn uniformly from
`[0, delay/2)`) is added first, and the sum is then clamped to `maxDelay`. -/
def retrySleep (delay maxDelay jitter : Nat) : Nat :=
  if maxDelay < delay + jitter then maxDelay else delay + jitter

/-- The delay update after sleeping. -/
def retryNextDelay (delay maxDelay : Nat) : Nat := min (delay * 2) maxDelay

/-! ## `checkStatusTimer` (mcpsdk/sdk.go)

`Run()` calls `checkStatusTimer`, which creates `time.NewTimer(5 min)` — a
one-shot timer, not a `Ticker` — defers `timer.Stop()`, and spawns a
goroutine whose `for`/`select` loop performs one status check per tick
received on `timer.C`.  A one-shot timer delivers at most one tick ever
(none after `Stop()` runs, which happens as soon as `checkStatusTimer`
returns); the model below credits the code with the most checks it could
ever perform. -/

/-- Ticks a `time.NewTimer(5 min)` channel can deliver within `m` minutes:
at most one, after the first five minutes. -/
def oneShotTimerTicks (elapsedMin : Nat) : Nat :=
  if 5 ≤ elapsedMin then 1 else 0

/-- Health checks the `checkStatusTimer` goroutine performs within `m`
minutes of runtime: one per tick received. -/
def healthChecksWithin (elapsedMin : Nat) : Nat := oneShotTimerTicks elapsedMin

/-- Modelled from the spec: "a health-check timer (every 5 minutes)" for
the lifetime of the bridge checks the status — one check at each elapsed
5-minute mark. -/
def specHealthChecksWithin (elapsedMin : Nat) : Nat := elapsedMin / 5

/-- Registration-shaped `RestfulSigner` input: the four auth headers, the
`client_id` query parameter, an empty body, the registration path. -/
def c9Signer : RestfulSigner :=
  { params := [(str "client_id", str "c")],
    path := str "/v1/client/registration",
    header := some [(str "access_id", str "a"), (str "t", str "1"),
      (str "nonce", str "n"), (str "sign_method", str "HMAC-SHA256")],
    payload := [],
    salt := str "s" }

/-- Known-answer check of the SHA-256 embedding (FIPS 180-4 test vector). -/
example : hexEncode (sha256 (utf8Bytes (str "abc"))) =
    str "ba7816bf8f01cfea414140de5dae2223b00361a396177a9cb410ff61f20015ad" := by
  decide

/-- Known-answer check of the HMAC-SHA256 embedding. -/
example : hexEncode (hmacSha256 (utf8Bytes (str "b")) (utf8Bytes (str "a"))) =
    str "cb448b440c42ac8ad084fc8a8795c98f5b7802359c305eabd57ecdb20e248896" := by
  decide

/-! ### Canonical-string computation for the fixed envelope key sets -/

/-- The request envelope keys in ascending order. -/
lemma req_keys_sorted (w : MCPSdkRequest) :
    sortStrings (w.payloadMap.map Prod.fst) =
      [str "endpoint", str "method", str "request", str "request_id",
       str "ts", str "version"] := by
  have h : sortStrings
      [str "request_id", str "endpoint", str "version", str "method",
       str "ts", str "request"] =
      [str "endpoint", str "method", str "request", str "request_id",
       str "ts", str "version"] := by decide
  simpa [MCPSdkRequest.payloadMap] using h

/-- The response envelope keys in ascending order. -/
lemma resp_keys_sorted (w : MCPSdkResponse) :
    sortStrings (w.payloadMap.map Prod.fst) =
      [str "endpoint", str "method", str "request_id", str "response",
       str "ts", str "version"] := by
  have h : sortStrings
      [str "request_id", str "endpoint", str "version", str "method",
       str "ts", str "response"] =
      [str "endpoint", str "method", str "request_id", str "response",
       str "ts", str "version"] := by decide
  simpa [MCPSdkResponse.payloadMap] using h

/-- The raw loop output for a request envelope. -/
lemma req_raw (w : MCPSdkRequest) :
    wsSignStrRaw w.payloadMap =
      str "endpoint" ++ str ":" ++ w.Endpoint ++ str "\n" ++
      str "method" ++ str ":" ++ w.Method ++ str "\n" ++
      str "request" ++ str ":" ++ w.Request ++ str "\n" ++
      str "request_id" ++ str ":" ++ w.RequestID ++ str "\n" ++
      str "ts" ++ str ":" ++ w.Timestamp ++ str "\n" ++
      str "version" ++ str ":" ++ w.Version ++ str "\n" := by
  rw [wsSignStrRaw, req_keys_sorted]
  simp +decide [wsStep, lookupD, MCPSdkRequest.payloadMap]

/-- The raw loop output for a response envelope. -/
lemma resp_raw (w : MCPSdkResponse) :
    wsSignStrRaw w.payloadMap =
      str "endpoint" ++ str ":" ++ w.Endpoint ++ str "\n" ++
      str "method" ++ str ":" ++ w.Method ++ str "\n" ++
      str "request_id" ++ str ":" ++ w.RequestID ++ str "\n" ++
      str "response" ++ str ":" ++ w.Response ++ str "\n" ++
      str "ts" ++ str ":" ++ w.Timestamp ++ str "\n" ++
      str "version" ++ str ":" ++ w.Version ++ str "\n" := by
  rw [wsSignStrRaw, resp_keys_sorted]
  simp +decide [wsStep, lookupD, MCPSdkResponse.payloadMap]

lemma req_raw_ne_nil (w : MCPSdkRequest) : wsSignStrRaw w.payloadMap ≠ [] := by
  rw [req_raw]
  exact List.append_ne_nil_of_right_ne_nil _ (by decide)

lemma resp_raw_ne_nil (w : MCPSdkResponse) : wsSignStrRaw w.payloadMap ≠ [] := by
  rw [resp_raw]
  exact List.append_ne_nil_of_right_ne_nil _ (by decide)

/-- The canonical string of a request envelope: `key:value` pairs, keys
ascending, joined by `\n`, no trailing newline, no `sign` entry. -/
lemma req_genSignStr (w : MCPSdkRequest) :
    WsDataSigner.genSignStr w.payloadMap =
      some (str "endpoint" ++ str ":" ++ w.Endpoint ++ str "\n" ++
            str "method" ++ str ":" ++ w.Method ++ str "\n" ++
            str "request" ++ str ":" ++ w.Request ++ str "\n" ++
            str "request_id" ++ str ":" ++ w.RequestID ++ str "\n" ++
            str "ts" ++ str ":" ++ w.Timestamp ++ str "\n" ++
            str "version" ++ str ":" ++ w.Version) := by
  rw [WsDataSigner.genSignStr, if_neg (req_raw_ne_nil w), req_raw,
      show (str "\n") = ['\n'] by decide, List.dropLast_concat]

/-- The canonical string of a response envelope. -/
lemma resp_genSignStr (w : MCPSdkResponse) :
    WsDataSigner.genSignStr w.payloadMap =
      some (str "endpoint" ++ str ":" ++ w.Endpoint ++ str "\n" ++
            str "method" ++ str ":" ++ w.Method ++ str "\n" ++
            str "request_id" ++ str ":" ++ w.RequestID ++ str "\n" ++
            str "response" ++ str ":" ++ w.Response ++ str "\n" ++
            str "ts" ++ str ":" ++ w.Timestamp ++ str "\n" ++
            str "version" ++ str ":" ++ w.Version) := by
  rw [WsDataSigner.genSignStr, if_neg (resp_raw_ne_nil w), resp_raw,
      show (str "\n") = ['\n'] by decide, List.dropLast_concat]

/-! ### Emptiness of the canonical string for arbitrary payload maps -/

lemma foldl_wsStep_ne_nil (p : List (Str × Str)) (ks : List Str) (acc : Str)
    (h : acc ≠ []) : ks.foldl (wsStep p) acc ≠ [] := by
  induction ks generalizing acc with
  | nil => simpa using h
  | cons k ks ih =>
      rw [List.foldl_cons]
      apply ih
      by_cases hk : k = str "sign"
      · simpa [wsStep, hk] using h
      · rw [wsStep, if_neg hk]
        exact List.append_ne_nil_of_right_ne_nil _ (by decide)

lemma foldl_wsStep_nil_iff (p : List (Str × Str)) (ks : List Str) :
    ks.foldl (wsStep p) [] = [] ↔ ∀ k ∈ ks, k = str "sign" := by
  induction ks with
  | nil => simp
  | cons k ks ih =>
      rw [List.foldl_cons]
      by_cases hk : k = str "sign"
      · rw [wsStep, if_pos hk]
        simp [ih, hk]
      · have hne : wsStep p [] k ≠ [] := by
          rw [wsStep, if_neg hk]
          exact List.append_ne_nil_of_right_ne_nil _ (by decide)
        constructor
        · intro h
          exact absurd h (foldl_wsStep_ne_nil p ks _ hne)
        · intro hall
          exact absurd (hall k (List.mem_cons_self k ks)) hk

/-- `genSignStr`'s loop output is empty exactly when every key of the
payload map is `"sign"`. -/
lemma wsSignStrRaw_nil_iff (p : List (Str × Str)) :
    wsSignStrRaw p = [] ↔ ∀ kv ∈ p, kv.1 = str "sign" := by
  rw [wsSignStrRaw, sortStrings, foldl_wsStep_nil_iff]
  constructor
  · intro h kv hkv
    exact h kv.1
      (((List.perm_insertionSort strLe _).mem_iff).2 (List.mem_map_of_mem Prod.fst hkv))
  · intro h k hk
    obtain ⟨kv, hkv, rfl⟩ :=
      List.mem_map.1 (((List.perm_insertionSort strLe _).mem_iff).1 hk)
    exact h kv hkv

/-- Presence of a non-`"sign"` key decides whether `genSignStr` returns
(`some`) or panics (`none`). -/
lemma genSignStr_isSome (p : List (Str × Str)) :
    (WsDataSigner.genSignStr p).isSome = p.any fun kv => kv.1 != str "sign" := by
  rw [WsDataSigner.genSignStr]
  by_cases hraw : wsSignStrRaw p = []
  · rw [if_pos hraw]
    have hall := (wsSignStrRaw_nil_iff p).1 hraw
    have : (p.any fun kv => kv.1 != str "sign") = false := by
      rw [List.any_eq_false]
      intro kv hkv
      simpa using hall kv hkv
    simp [this]
  · rw [if_neg hraw]
    have hex : ∃ kv ∈ p, kv.1 ≠ str "sign" := by
      by_contra hcon
      push_neg at hcon
      exact hraw ((wsSignStrRaw_nil_iff p).2 hcon)
    obtain ⟨kv, hkv, hne⟩ := hex
    have : (p.any fun kv => kv.1 != str "sign") = true := by
      rw [List.any_eq_true]
      exact ⟨kv, hkv, by simpa using hne⟩
    simp [this]


/-! ## Claim theorems C1, C3, C10 -/

/-- C1: for every envelope (request or response) and every token, signing
with `DoSign` (which stores the sign field) and then verifying the signed
envelope with `DoVerify` under the same token yields `true` (and neither
call panics). -/
theorem c1_sign_then_verify_roundtrip
    (w : MCPSdkRequest) (r : MCPSdkResponse) (token : Str) :
    ((w.DoSign token).bind fun w2 => w2.DoVerify token) = some true ∧
    ((r.DoSign token).bind fun r2 => r2.DoVerify token) = some true := by
  constructor
  · simp [MCPSdkRequest.DoSign, MCPSdkRequest.DoVerify, WsDataSigner.Sign,
      WsDataSigner.Verify, req_genSignStr, Sha256Algo.Sign, Sha256Algo.Verify]
  · simp [MCPSdkResponse.DoSign, MCPSdkResponse.DoVerify, WsDataSigner.Sign,
      WsDataSigner.Verify, resp_genSignStr, Sha256Algo.Sign, Sha256Algo.Verify]

/-- C3: the WS canonical string of an envelope (request or response) lists
the envelope's fields as `key:value` pairs in ascending lexicographic key
order, joined by `\n` with no trailing newline, and contains no entry for
the key `sign`: the sorted key sequence is exactly the non-`sign` field
keys, it is strictly ascending, and the canonical string is the
corresponding `key:value` chain. -/
theorem c3_canonical_string_shape (w : MCPSdkRequest) (r : MCPSdkResponse) :
    WsDataSigner.genSignStr w.payloadMap =
      some (str "endpoint" ++ str ":" ++ w.Endpoint ++ str "\n" ++
            str "method" ++ str ":" ++ w.Method ++ str "\n" ++
            str "request" ++ str ":" ++ w.Request ++ str "\n" ++
            str "request_id" ++ str ":" ++ w.RequestID ++ str "\n" ++
            str "ts" ++ str ":" ++ w.Timestamp ++ str "\n" ++
            str "version" ++ str ":" ++ w.Version) ∧
    WsDataSigner.genSignStr r.payloadMap =
      some (str "endpoint" ++ str ":" ++ r.Endpoint ++ str "\n" ++
            str "method" ++ str ":" ++ r.Method ++ str "\n" ++
            str "request_id" ++ str ":" ++ r.RequestID ++ str "\n" ++
            str "response" ++ str ":" ++ r.Response ++ str "\n" ++
            str "ts" ++ str ":" ++ r.Timestamp ++ str "\n" ++
            str "version" ++ str ":" ++ r.Version) ∧
    sortStrings (w.payloadMap.map Prod.fst) =
      [str "endpoint", str "method", str "request", str "request_id",
       str "ts", str "version"] ∧
    sortStrings (r.payloadMap.map Prod.fst) =
      [str "endpoint", str "method", str "request_id", str "response",
       str "ts", str "version"] ∧
    strictAscB
      [str "endpoint", str "method", str "request", str "request_id",
       str "ts", str "version"] = true ∧
    strictAscB
      [str "endpoint", str "method", str "request_id", str "response",
       str "ts", str "version"] = true ∧
    str "sign" ∉ w.payloadMap.map Prod.fst ∧
    str "sign" ∉ r.payloadMap.map Prod.fst := by
  refine ⟨req_genSignStr w, resp_genSignStr r, req_keys_sorted w,
    resp_keys_sorted r, by decide, by decide, ?_, ?_⟩
  · simp +decide [MCPSdkRequest.payloadMap]
  · simp +decide [MCPSdkResponse.payloadMap]

/-- C10: `WsDataSigner.Sign` and `WsDataSigner.Verify` return normally
(`some`) exactly when the payload map has at least one key other than
`"sign"`; for the empty payload map (or one whose only key is `"sign"`)
`genSignStr` slices the empty string out of bounds and the call panics
(`none`). -/
theorem c10_sign_panics_iff_no_real_key
    (p : List (Str × Str)) (salt sig : Str) :
    ((WsDataSigner.Sign p salt).isSome = p.any fun kv => kv.1 != str "sign") ∧
    ((WsDataSigner.Verify p salt sig).isSome = p.any fun kv => kv.1 != str "sign") ∧
    WsDataSigner.Sign ([] : List (Str × Str)) salt = none ∧
    WsDataSigner.Sign [(str "sign", sig)] salt = none := by
  refine ⟨?_, ?_, rfl, ?_⟩
  · rw [WsDataSigner.Sign, Option.isSome_map']
    exact genSignStr_isSome p
  · rw [WsDataSigner.Verify, Option.isSome_map']
    exact genSignStr_isSome p
  · rw [WsDataSigner.Sign, WsDataSigner.genSignStr,
      if_pos ((wsSignStrRaw_nil_iff _).2 (by simp))]
    rfl

/-! ## Claim theorems C2, C4, C5, C6, C7 -/

/-- C2 counterexample: a stored sign that differs from the recomputed
digest only in letter case — here the all-lowercase form of the correct
sign — does NOT verify: `Verify` uppercases only the recomputed digest and
compares exactly.  The third conjunct pins the concrete digest. -/
theorem c2_counterexample_lowercase_sign_rejected :
    Sha256Algo.Verify (utf8Bytes (str "endpoint:e")) (str "k")
      (lowStr (Sha256Algo.Sign (utf8Bytes (str "endpoint:e")) (str "k"))) = false ∧
    upStr (lowStr (Sha256Algo.Sign (utf8Bytes (str "endpoint:e")) (str "k"))) =
      Sha256Algo.Sign (utf8Bytes (str "endpoint:e")) (str "k") ∧
    Sha256Algo.Sign (utf8Bytes (str "endpoint:e")) (str "k") =
      upStr (str "c1ae6f9e4a0bd7110ff591e554917786237fd8f57704fee6d3ff5c76834ecd41") := by
  decide

/-- C2 (amended): verification is recomputation followed by exact,
case-sensitive string equality against the uppercased recomputed hex
digest — a sign verifies exactly when it equals the uppercase hex form. -/
theorem c2_verify_exact_uppercase_equality (data : List Nat) (salt sign : Str) :
    Sha256Algo.Verify data salt sign = true ↔
      sign = upStr (hexEncode (hmacSha256 (utf8Bytes salt) data)) := by
  rw [Sha256Algo.Verify, beq_iff_eq, eq_comm]

/-- C4 counterexample: a body with `success=true` but an empty `token` and
`client_id` is accepted by `Auth` (no error), contradicting the claim that
it is rejected. -/
theorem c4_counterexample_empty_token_accepted :
    authAfterBody
        (some { Data := { Token := [], ClientId := [] }, Success := true }) =
      Except.ok { Data := { Token := [], ClientId := [] }, Success := true } := rfl

/-- C4 (amended): after the HTTP GET, `Auth` succeeds exactly when the body
unmarshals and `success=true` — the emptiness of `data.token` and
`data.clientId` is never checked — and `HttpGet` returns the body for every
HTTP status code, so a non-2xx status alone causes no error. -/
theorem c4_auth_checks_only_success
    (u : Option authResponse) (status : Nat) (body : Str) :
    ((authAfterBody u).isOk = true ↔ ∃ r, u = some r ∧ r.Success = true) ∧
    HttpGet (Except.ok (status, body)) = Except.ok body := by
  refine ⟨?_, rfl⟩
  cases u with
  | none => simp [authAfterBody, Except.isOk, Except.toBool]
  | some r =>
      cases hr : r.Success with
      | false => simp [authAfterBody, hr, Except.isOk, Except.toBool]
      | true => simp [authAfterBody, hr, Except.isOk, Except.toBool]

/-- C5 counterexample: with `currentDelay = maxDelay = 100` and a valid
jitter `10 ∈ [0, 100/2)`, the code sleeps `100` — the sum is clamped to
`maxDelay` — while the claim's formula `min(maxDelay, currentDelay) +
jitter` gives `110`: the sleep cannot exceed `maxDelay` by the jitter. -/
theorem c5_counterexample_sleep_clamped :
    retrySleep 100 100 10 = 100 ∧ (10 : Nat) < 100 / 2 ∧
    min 100 100 + 10 = 110 ∧ retrySleep 100 100 10 ≠ min 100 100 + 10 := by
  decide

/-- C5 (amended): the sleep between failing attempts equals
`min(maxDelay, currentDelay + jitter)` — jitter added first, then clamped —
so it never exceeds `maxDelay`; afterwards
`currentDelay ← min(currentDelay × 2, maxDelay)`. -/
theorem c5_sleep_is_clamped_sum (delay maxDelay jitter : Nat) :
    retrySleep delay maxDelay jitter = min maxDelay (delay + jitter) ∧
    retrySleep delay maxDelay jitter ≤ maxDelay ∧
    retryNextDelay delay maxDelay = min (delay * 2) maxDelay := by
  refine ⟨?_, ?_, rfl⟩
  · rw [retrySleep, Nat.min_def]
    split_ifs <;> omega
  · rw [retrySleep]
    split_ifs <;> omega

/-- C6: every response envelope the dispatcher emits — `tools/list`,
`tools/call` and the `replyError` tool-error reply all build it with
`handlerResponse` — exists (`DoSign` succeeds) and carries `request_id`,
`endpoint`, `version`, `method` and `ts` copied verbatim from the request,
with the reply body as `response`; only `sign` (not projected here) and
`response` differ from the request. -/
theorem c6_response_preserves_request_base
    (req : MCPSdkRequest) (body token : Str) :
    (handlerResponse req body token).map
        (fun resp => (resp.RequestID, resp.Endpoint, resp.Version,
          resp.Method, resp.Timestamp, resp.Response)) =
      some (req.RequestID, req.Endpoint, req.Version, req.Method,
        req.Timestamp, body) := by
  simp [handlerResponse, MCPSdkResponse.DoSign, WsDataSigner.Sign, resp_genSignStr]

/-- C7: the health-check loop of `checkStatusTimer` consumes a one-shot
`time.NewTimer` channel, so over any lifetime it performs at most one
status check — at 10 minutes the code has checked once while the claimed
every-5-minutes schedule requires two checks. -/
theorem c7_health_check_at_most_once :
    (∀ m, healthChecksWithin m ≤ 1) ∧
    healthChecksWithin 10 = 1 ∧ specHealthChecksWithin 10 = 2 := by
  refine ⟨?_, rfl, rfl⟩
  intro m
  rw [healthChecksWithin, oneShotTimerTicks]
  split <;> omega

/-! ## Claim theorems C8, C9 -/

/-- Prepending anything to a string that ends with a newline yields a
string that ends with a newline. -/
lemma ends_nl_cons (x rest : Str) (h : ∃ c, rest = c ++ str "\n") :
    ∃ c, x ++ rest = c ++ str "\n" := by
  obtain ⟨c, rfl⟩ := h
  exact ⟨x ++ c, by simp⟩

/-- The signature-headers loop of `headerStr` preserves a trailing
newline of the accumulator (every appended line also ends with one). -/
lemma foldHdr_ends_nl (hdr : List (Str × Str)) (ks : List Str) (acc : Str)
    (h : ∃ c, acc = c ++ str "\n") :
    ∃ c, (ks.foldl
        (fun acc k => acc ++ trimSpace k ++ str ":" ++
          trimSpace (lookupD hdr (trimSpace k)) ++ str "\n") acc) =
      c ++ str "\n" := by
  induction ks generalizing acc with
  | nil => simpa using h
  | cons k ks ih =>
      rw [List.foldl_cons]
      apply ih
      repeat apply ends_nl_cons
      exact ⟨[], by simp⟩

/-- With a non-`nil` header map, `headerStr` ends with a newline. -/
lemma headerStr_ends_nl (s : RestfulSigner) (hdr : List (Str × Str))
    (h : s.header = some hdr) :
    ∃ c, RestfulSigner.headerStr s = c ++ str "\n" := by
  simp only [RestfulSigner.headerStr, h]
  by_cases hs : lookupD hdr (str "signature_headers") = []
  · rw [if_pos hs]
    repeat apply ends_nl_cons
    exact ⟨[], by simp⟩
  · rw [if_neg hs]
    apply foldHdr_ends_nl
    repeat apply ends_nl_cons
    exact ⟨[], by simp⟩

/-- A string of the form `(c ++ "\n") ++ "\n"` ends with a blank line. -/
lemma endsWithTwoNl_append (c : Str) :
    endsWithTwoNl ((c ++ str "\n") ++ str "\n") = true := by
  rw [endsWithTwoNl, show (str "\n") = ['\n'] by decide]
  simp

/-- C9 counterexample: on a registration-shaped input the canonical string
is `header-block \n query \n body \n path` with single separators; the text
preceding the body section (`header ++ "\n" ++ query ++ "\n"`) does NOT end
with a blank line, so the body bytes are preceded by a single newline, not
two — while the query is preceded by a blank line. -/
theorem c9_counterexample_body_after_single_newline :
    RestfulSigner.genSignStr c9Signer =
      str "a\n1\nHMAC-SHA256\nn\n\nclient_id=c\n\n/v1/client/registration" ∧
    endsWithTwoNl (RestfulSigner.headerStr c9Signer ++ str "\n" ++
      RestfulSigner.queryParamsStr c9Signer ++ str "\n") = false ∧
    endsWithTwoNl (RestfulSigner.headerStr c9Signer ++ str "\n") = true := by
  decide

/-- C9 (amended): in the REST canonical string the header block ends with a
newline and the query, body and path sections are joined by single `\n`
separators — so the sorted query string is preceded by a blank line, the
body is preceded by a single newline, and the path is preceded by a blank
line exactly when the body is empty (as it is for the registration and
WebSocket-upgrade signatures, whose requests carry no body). -/
theorem c9_sections_single_separators (s : RestfulSigner)
    (hdr : List (Str × Str)) (h : s.header = some hdr) :
    (∃ c, RestfulSigner.headerStr s = c ++ str "\n") ∧
    RestfulSigner.genSignStr s =
      RestfulSigner.headerStr s ++ str "\n" ++ RestfulSigner.queryParamsStr s ++
        str "\n" ++ RestfulSigner.payloadStr s ++ str "\n" ++
        RestfulSigner.urlStr s ∧
    endsWithTwoNl (RestfulSigner.headerStr s ++ str "\n") = true ∧
    (s.payload = [] →
      RestfulSigner.genSignStr s =
        RestfulSigner.headerStr s ++ str "\n" ++ RestfulSigner.queryParamsStr s ++
          str "\n" ++ str "\n" ++ RestfulSigner.urlStr s) := by
  obtain ⟨c, hc⟩ := headerStr_ends_nl s hdr h
  refine ⟨⟨c, hc⟩, rfl, ?_, ?_⟩
  · rw [hc]
    exact endsWithTwoNl_append c
  · intro hp
    simp [RestfulSigner.genSignStr, RestfulSigner.payloadStr, hp]

/-- Witness for C9 (amended) at the registration-shaped input. -/
theorem c9_sections_single_separators_witness :
    endsWithTwoNl (RestfulSigner.headerStr c9Signer ++ str "\n") = true ∧
    RestfulSigner.genSignStr c9Signer =
      RestfulSigner.headerStr c9Signer ++ str "\n" ++
        RestfulSigner.queryParamsStr c9Signer ++ str "\n" ++ str "\n" ++
        RestfulSigner.urlStr c9Signer :=
  ⟨(c9_sections_single_separators c9Signer
      [(str "access_id", str "a"), (str "t", str "1"),
       (str "nonce", str "n"), (str "sign_method", str "HMAC-SHA256")]
      rfl).2.2.1,
   (c9_sections_single_separators c9Signer
      [(str "access_id", str "a"), (str "t", str "1"),
       (str "nonce", str "n"), (str "sign_method", str "HMAC-SHA256")]
      rfl).2.2.2 rfl⟩

/-- C8 counterexample: a fresh `AuthToken` — no `Auth()` has run, the token
and client id are the zero values — still gets a WebSocket URL (with empty
`client_id`) and signed headers from `ConnectHeader`, not a
`NotAuthenticated` error. -/
theorem c8_counterexample_no_auth_still_succeeds :
    (AuthToken.ConnectHeader
        (NewAuthToken (str "https") (str "h") (str "a") (str "s"))
        (str "1") (str "n")).isOk = true ∧
    ((AuthToken.ConnectHeader
        (NewAuthToken (str "https") (str "h") (str "a") (str "s"))
        (str "1") (str "n")).toOption.map Prod.fst) =
      some (str "wss://h/ws/mcp?client_id=") := by
  constructor
  · rfl
  · decide

/-- C8 (amended): `ConnectHeader` performs no authentication check — for
every token state (authenticated or not) it returns success, with the
connect URL built from whatever client id is stored (the empty string
before any `Auth()`), never a `NotAuthenticated` error. -/
theorem c8_connect_header_never_requires_auth (a : AuthToken) (t nonce : Str) :
    (a.ConnectHeader t nonce).isOk = true ∧
    (a.ConnectHeader t nonce).toOption.map Prod.fst =
      some (connectUrlOf a a.resp.Data.ClientId) :=
  ⟨rfl, rfl⟩

end TuyaMcpSdk
